import Mathlib

/-!
Shallow embedding of the diagram-analysis pipeline:
`src/utils/llm_analyzer.py` (structure extraction, summary template
normalisation, validation) and `src/utils/simulink_generator.py`
(deterministic MDL text generation, MDL validation).

Python strings are modelled as Lean `String`, Python dictionaries coming
from JSON as association lists `List (String × JVal)`, Python exceptions
as an explicit error type, and the stateful generator counters as an
explicit `GenState` threaded through the render call.
-/

/-- Python whitespace set used by `str.strip()` and the regex class `\s`
(ASCII whitespace plus the ideographic space, the only ones relevant to
the repository's data). -/
def pyIsSpace (c : Char) : Bool :=
  c = ' ' || c = '\t' || c = '\n' || c = '\r' || c = '\x0b' || c = '\x0c' || c = '　'

/-- JSON inter-token whitespace accepted by `json.loads` (RFC 8259). -/
def jsonWs (c : Char) : Bool :=
  c = ' ' || c = '\t' || c = '\n' || c = '\r'

/-- Python `str.strip()`: drop whitespace from both ends. -/
def pyStrip (s : String) : String :=
  String.mk (((s.data.dropWhile pyIsSpace).reverse.dropWhile pyIsSpace).reverse)

/-- Python substring membership `sub in s`. -/
def pyContains (s sub : String) : Bool :=
  decide (sub.data <:+: s.data)

/-- Python `s.endswith(suf)`. -/
def pyEndsWith (s suf : String) : Bool :=
  decide (suf.data <:+ s.data)

/-- One left-to-right, non-overlapping replacement pass of Python
`str.replace` over character lists; `fuel` bounds the recursion and is
instantiated with the input length, which suffices because each step
consumes at least one character. -/
def replaceAux (pat repl : List Char) : Nat → List Char → List Char
  | _, [] => []
  | 0, l => l
  | fuel + 1, c :: cs =>
    if pat.isPrefixOf (c :: cs) then
      repl ++ replaceAux pat repl fuel ((c :: cs).drop pat.length)
    else
      c :: replaceAux pat repl fuel cs

/-- Python `s.replace(pat, repl)` for a non-empty `pat`. -/
def pyReplace (s pat repl : String) : String :=
  String.mk (replaceAux pat.data repl.data (s.data.length + 1) s.data)

/-- JSON values as produced by Python's `json.loads`.  Numbers are
restricted to integers: no float literal occurs in any repository
data. -/
inductive JVal where
  | null
  | bool (b : Bool)
  | num (n : Int)
  | str (s : String)
  | arr (elems : List JVal)
  | obj (members : List (String × JVal))

/-- Escape map for `\c` escapes inside JSON strings. -/
def jsonEscape (c : Char) : Option Char :=
  if c = '"' then some '"'
  else if c = '\\' then some '\\'
  else if c = '/' then some '/'
  else if c = 'b' then some '\x08'
  else if c = 'f' then some '\x0c'
  else if c = 'n' then some '\n'
  else if c = 'r' then some '\r'
  else if c = 't' then some '\t'
  else none

/-- Hex digit value. -/
def hexVal (c : Char) : Option Nat :=
  if '0' ≤ c ∧ c ≤ '9' then some (c.toNat - '0'.toNat)
  else if 'a' ≤ c ∧ c ≤ 'f' then some (c.toNat - 'a'.toNat + 10)
  else if 'A' ≤ c ∧ c ≤ 'F' then some (c.toNat - 'A'.toNat + 10)
  else none

/-- Body of a JSON string after the opening quote: returns the decoded
characters and the input remaining after the closing quote.  Unescaped
control characters are rejected, as in `json.loads`. -/
def parseStrAux : Nat → List Char → Option (List Char × List Char)
  | 0, _ => none
  | _, [] => none
  | fuel + 1, c :: cs =>
    if c = '"' then some ([], cs)
    else if c = '\\' then
      match cs with
      | [] => none
      | e :: cs' =>
        if e = 'u' then
          match cs' with
          | h1 :: h2 :: h3 :: h4 :: cs'' =>
            match hexVal h1, hexVal h2, hexVal h3, hexVal h4 with
            | some a, some b, some cc, some d =>
              (parseStrAux fuel cs'').map fun p =>
                (Char.ofNat (((a * 16 + b) * 16 + cc) * 16 + d) :: p.1, p.2)
            | _, _, _, _ => none
          | _ => none
        else
          match jsonEscape e with
          | some ch => (parseStrAux fuel cs').map fun p => (ch :: p.1, p.2)
          | none => none
    else if c.toNat < 32 then none
    else (parseStrAux fuel cs).map fun p => (c :: p.1, p.2)

/-- Leading decimal digits of the input. -/
def takeDigits (cs : List Char) : List Char × List Char :=
  (cs.takeWhile (fun c => c.isDigit), cs.dropWhile (fun c => c.isDigit))

/-- Digit list to natural number. -/
def digitsToNat (ds : List Char) : Nat :=
  ds.foldl (fun acc c => acc * 10 + (c.toNat - '0'.toNat)) 0

/-- JSON integer literal (floats are rejected: none occur in the
repository's data).  Mirrors the grammar: optional minus, then `0` or a
nonzero-led digit run, not followed by a fraction or exponent. -/
def parseNum (cs : List Char) : Option (JVal × List Char) :=
  let (neg, cs1) :=
    match cs with
    | '-' :: rest => (true, rest)
    | _ => (false, cs)
  let (ds, rest) := takeDigits cs1
  if ds = [] then none
  else if 1 < ds.length ∧ ds.headD '0' = '0' then none
  else
    match rest with
    | '.' :: _ => none
    | 'e' :: _ => none
    | 'E' :: _ => none
    | _ =>
      let n : Int := Int.ofNat (digitsToNat ds)
      some (.num (if neg then -n else n), rest)

mutual

/-- Recursive-descent JSON value, mirroring `json.loads`' grammar on the
repository's data.  `fuel` only bounds nesting of recursive calls; every
recursive call is preceded by the consumption of at least one input
character, so an initial fuel larger than the input length never runs
out. -/
def parseVal : Nat → List Char → Option (JVal × List Char)
  | 0, _ => none
  | fuel + 1, cs =>
    match cs.dropWhile jsonWs with
    | '\x7b' :: r => parseMembers fuel r
    | '[' :: r => parseElems fuel r
    | '"' :: r => (parseStrAux fuel r).map fun p => (.str (String.mk p.1), p.2)
    | 't' :: 'r' :: 'u' :: 'e' :: r => some (.bool true, r)
    | 'f' :: 'a' :: 'l' :: 's' :: 'e' :: r => some (.bool false, r)
    | 'n' :: 'u' :: 'l' :: 'l' :: r => some (.null, r)
    | other => parseNum other

/-- Object members after the opening brace. -/
def parseMembers : Nat → List Char → Option (JVal × List Char)
  | 0, _ => none
  | fuel + 1, cs =>
    match cs.dropWhile jsonWs with
    | '\x7d' :: r => some (.obj [], r)
    | '"' :: r =>
      match parseStrAux fuel r with
      | none => none
      | some (key, r1) =>
        match r1.dropWhile jsonWs with
        | ':' :: r2 =>
          match parseVal fuel r2 with
          | none => none
          | some (v, r3) =>
            match r3.dropWhile jsonWs with
            | ',' :: r4 =>
              match parseMembers fuel r4 with
              | some (.obj ms, r5) => some (.obj ((String.mk key, v) :: ms), r5)
              | _ => none
            | '\x7d' :: r4 => some (.obj [(String.mk key, v)], r4)
            | _ => none
        | _ => none
    | _ => none

/-- Array elements after the opening bracket. -/
def parseElems : Nat → List Char → Option (JVal × List Char)
  | 0, _ => none
  | fuel + 1, cs =>
    match cs.dropWhile jsonWs with
    | ']' :: r => some (.arr [], r)
    | other =>
      match parseVal fuel other with
      | none => none
      | some (v, r1) =>
        match r1.dropWhile jsonWs with
        | ',' :: r2 =>
          match parseElems fuel r2 with
          | some (.arr vs, r3) => some (.arr (v :: vs), r3)
          | _ => none
        | ']' :: r2 => some (.arr [v], r2)
        | _ => none

end

/-- Python `json.loads`: parse one JSON document and require that only
whitespace remains; `none` models a raised `json.JSONDecodeError`. -/
def json_loads (s : String) : Option JVal :=
  match parseVal (s.data.length + 16) s.data with
  | some (v, rest) => if rest.dropWhile jsonWs = [] then some v else none
  | none => none

/-- Python `key in d` for a JSON-object dictionary. -/
def dictContains (d : List (String × JVal)) (k : String) : Bool :=
  d.any (fun p => p.1 = k)

/-- Python `d.get(k, default)`; the last binding wins, matching a Python
dict built from JSON text with duplicate keys. -/
def dictGetD (d : List (String × JVal)) (k : String) (dflt : JVal) : JVal :=
  match d.reverse.find? (fun p => p.1 = k) with
  | some p => p.2
  | none => dflt

/-- Python `len(v)` on a JSON value: defined for strings, arrays and
objects; `none` models the `TypeError` raised otherwise. -/
def jsonLen : JVal → Option Nat
  | .str s => some s.length
  | .arr l => some l.length
  | .obj l => some l.length
  | _ => none

/-- `LLMAnalyzer.validate_analysis`: all five schema keys present,
`processes` non-empty and `data_flows` non-empty.  `none` models a
`TypeError` from `len` on a non-sized value. -/
def validate_analysis (analysis_result : List (String × JVal)) : Option Bool :=
  let required := ["processes", "data_stores", "external_entities", "data_flows", "system_overview"]
  if ¬ (required.all (fun k => dictContains analysis_result k)) then some false
  else
    match jsonLen (dictGetD analysis_result "processes" (.arr [])) with
    | none => none
    | some np =>
      if np = 0 then some false
      else
        match jsonLen (dictGetD analysis_result "data_flows" (.arr [])) with
        | none => none
        | some nf => if nf = 0 then some false else some true

/-- Python exceptions distinguished by the analyzer's `except` clauses.
The stored string is `str(e)`; for `json.JSONDecodeError` the CPython
message text is not modelled and is carried as the empty string. -/
inductive PyErr where
  | attributeError (msg : String)
  | valueError (msg : String)
  | jsonDecodeError (msg : String)
  | exception (msg : String)

/-- Python `str(e)` on an exception. -/
def pyStr : PyErr → String
  | .attributeError m => m
  | .valueError m => m
  | .jsonDecodeError m => m
  | .exception m => m

/-- Python `s.find(c)`: index of first occurrence or `-1`. -/
def pyFind (s : String) (c : Char) : Int :=
  match s.data.findIdx? (fun x => x = c) with
  | some i => Int.ofNat i
  | none => -1

/-- Python `s.rfind(c)`: index of last occurrence or `-1`. -/
def pyRfind (s : String) (c : Char) : Int :=
  match s.data.reverse.findIdx? (fun x => x = c) with
  | some i => Int.ofNat (s.data.length - 1 - i)
  | none => -1

/-- Python `s[a:b]` for the non-negative indices produced by `find`. -/
def pySlice (s : String) (a b : Int) : String :=
  String.mk ((s.data.take b.toNat).drop a.toNat)

/-- Python `s[:n]`. -/
def pyTake (s : String) (n : Nat) : String :=
  String.mk (s.data.take n)

/-- The JSON-coercion ladder inside `LLMAnalyzer.analyze_image`: parse the
model output directly; on failure parse the substring between the first
`\x7b` and the last `\x7d`; if the braces are absent raise
`ValueError` carrying a 200-character excerpt; an unparsable brace
substring raises `json.JSONDecodeError`. -/
def parse_model_output (out : String) : Except PyErr JVal :=
  match json_loads out with
  | some v => .ok v
  | none =>
    let s := pyFind out '\x7b'
    let e := pyRfind out '\x7d'
    if s ≠ -1 ∧ e ≠ -1 then
      match json_loads (pySlice out s (e + 1)) with
      | some v => .ok v
      | none => .error (.jsonDecodeError "")
    else
      .error (.valueError ("モデル出力がJSONではありません: " ++ pyTake out 200))

/-- `LLMAnalyzer._analyze_image_fallback`: Chat Completions result parsed
directly; both a call failure and a parse failure propagate unwrapped. -/
def _analyze_image_fallback (call : Except PyErr String) : Except PyErr JVal :=
  match call with
  | .ok content =>
    match json_loads content with
    | some v => .ok v
    | none => .error (.jsonDecodeError "")
  | .error e => .error e

/-- `LLMAnalyzer.analyze_image` dispatch: the primary Responses-API call is
modelled by its outcome (`.ok` output text, or a raised exception).
`AttributeError` routes to the fallback; any other failure — including a
parse failure of returned content — is wrapped and re-raised. -/
def analyze_image (primary : Except PyErr String) (fallbackCall : Except PyErr String) :
    Except PyErr JVal :=
  match primary with
  | .error (.attributeError _) => _analyze_image_fallback fallbackCall
  | .error e => .error (.exception ("画像解析中にエラーが発生しました: " ++ pyStr e))
  | .ok out =>
    match parse_model_output out with
    | .ok v => .ok v
    | .error e => .error (.exception ("画像解析中にエラーが発生しました: " ++ pyStr e))

/-- Python `content.split(chr(10))` over character lists. -/
def splitLinesAux : List Char → List Char → List String
  | acc, [] => [String.mk acc.reverse]
  | acc, c :: cs =>
    if c = '\n' then String.mk acc.reverse :: splitLinesAux [] cs
    else splitLinesAux (c :: acc) cs

/-- Python `s.split(chr(10))`. -/
def pySplitNl (s : String) : List String := splitLinesAux [] s.data

/-- Python `sep.join(parts)`. -/
def pyJoin (sep : String) : List String → String
  | [] => ""
  | [x] => x
  | x :: xs => x ++ sep ++ pyJoin sep xs

/-- One alternative of the section-header regex: a circled-digit marker,
then `\s*` (greedy; safe because none of the header words starts with
whitespace), then the literal header word.  Returns the matched text and
the remaining input. -/
def tryMarker (marker : Char) (word : List Char) (cs : List Char) :
    Option (List Char × List Char) :=
  match cs with
  | [] => none
  | c :: rest =>
    if c = marker then
      let ws := rest.takeWhile pyIsSpace
      let after := rest.dropWhile pyIsSpace
      if word.isPrefixOf after then
        some (c :: (ws ++ word), after.drop word.length)
      else none
    else none

/-- The alternation of the three section-header patterns of
`_format_to_overview_template`; the markers are distinct first
characters, so alternation order is immaterial. -/
def matchHeaderAt (cs : List Char) : Option (List Char × List Char) :=
  (tryMarker '①' "モデル化対象".data cs).orElse fun _ =>
  (tryMarker '②' "モデル化の範囲・抽象度".data cs).orElse fun _ =>
  tryMarker '③' "モデル化した機能".data cs

/-- `re.split` with a capturing group: alternating unmatched segments and
captured separators.  `fuel` is the input length; each step consumes at
least one character. -/
def splitAux : Nat → List Char → List Char → List String
  | _, acc, [] => [String.mk acc.reverse]
  | 0, acc, rest => [String.mk (acc.reverse ++ rest)]
  | fuel + 1, acc, c :: cs =>
    match matchHeaderAt (c :: cs) with
    | some (m, rest') => String.mk acc.reverse :: String.mk m :: splitAux fuel [] rest'
    | none => splitAux fuel (c :: acc) cs

/-- `re.split(header-pattern, s)` as used in the template pass. -/
def reSplitHeaders (s : String) : List String := splitAux s.data.length [] s.data

/-- `re.sub(leading-list-marker-class, empty, line)`: strip the leading
run of hyphens, bullets, digits, dots and whitespace. -/
def stripListMarkers (line : String) : String :=
  String.mk (line.data.dropWhile
    (fun c => c = '-' || c = '•' || c.isDigit || c = '.' || pyIsSpace c))

/-- The per-line cleanup loop of the template pass: strip each line, drop
it when empty, strip leading list markers, drop again when empty. -/
def contentLines (content : String) : List String :=
  (pySplitNl content).filterMap fun l =>
    let l1 := pyStrip l
    if l1 = "" then none
    else
      let l2 := stripListMarkers l1
      if l2 = "" then none else some l2

/-- Lookahead content handling shared by the three header branches: take
the next split segment, strip it, clean its lines, and join the
survivors with single spaces into one paragraph line. -/
def contentOf (rest : List String) : List String :=
  match rest with
  | [] => []
  | next :: _ =>
    let content := pyStrip next
    if content = "" then []
    else
      let cls := contentLines content
      if cls = [] then [] else [pyJoin " " cls]

/-- The `for i, section in enumerate(sections)` loop of
`_format_to_overview_template`: a recognised header emits the header
line, its lookahead content, and (after sections one and two only) a
blank line; every other segment is skipped. -/
def sectionLoop : List String → List String
  | [] => []
  | sec :: rest =>
    let s := pyStrip sec
    if s = "" then sectionLoop rest
    else if pyContains s "① モデル化対象" then
      "① モデル化対象" :: (contentOf rest ++ [""] ++ sectionLoop rest)
    else if pyContains s "② モデル化の範囲・抽象度" then
      "② モデル化の範囲・抽象度" :: (contentOf rest ++ [""] ++ sectionLoop rest)
    else if pyContains s "③ モデル化した機能" then
      "③ モデル化した機能" :: (contentOf rest ++ sectionLoop rest)
    else sectionLoop rest

/-- `LLMAnalyzer._format_to_overview_template`: falsy input is returned
unchanged; otherwise line endings are normalised, the text is split on
the three section headers, and the output is rebuilt from the two fixed
opening lines, a blank line, and the processed sections. -/
def _format_to_overview_template (text : String) : String :=
  if text = "" then text
  else
    let normalized := pyStrip (pyReplace (pyReplace text "\r\n" "\n") "\r" "\n")
    let sections := reSplitHeaders normalized
    pyJoin "\n" (["概要", "以下に本システムの概要を示す。", ""] ++ sectionLoop sections)

/-- `LLMAnalyzer._generate_summary_fallback`: chat result pushed through
the template pass; a call failure propagates unwrapped. -/
def _generate_summary_fallback (call : Except PyErr String) : Except PyErr String :=
  match call with
  | .ok content => .ok (_format_to_overview_template content)
  | .error e => .error e

/-- `LLMAnalyzer.generate_summary` dispatch: primary result is
template-formatted; `AttributeError` routes to the fallback; any other
failure is wrapped and re-raised. -/
def generate_summary (primary : Except PyErr String) (fallbackCall : Except PyErr String) :
    Except PyErr String :=
  match primary with
  | .error (.attributeError _) => _generate_summary_fallback fallbackCall
  | .error e => .error (.exception ("概要文章生成中にエラーが発生しました: " ++ pyStr e))
  | .ok out => .ok (_format_to_overview_template out)

/-- One `{id, name, description}` record of a DiagramModel collection;
each key may be absent, matching the `dict.get` fallbacks in the
generator. -/
structure PEntry where
  id : Option String
  name : Option String
  description : Option String

/-- One `{id, from, to, data}` data-flow record (`from` is a Lean
keyword, hence `from_`). -/
structure FlowEntry where
  id : Option String
  from_ : Option String
  to_ : Option String
  data : Option String

/-- The DiagramModel dictionary consumed by the generator; each of the
five top-level keys may be absent. -/
structure DiagramModel where
  processes : Option (List PEntry)
  data_stores : Option (List PEntry)
  external_entities : Option (List PEntry)
  data_flows : Option (List FlowEntry)
  system_overview : Option String

/-- The two per-instance counters of `SimulinkGenerator`. -/
structure GenState where
  block_counter : Nat
  line_counter : Nat

/-- Field content of one rendered process (SubSystem) block. -/
structure ProcessBlock where
  name : String
  sid : Nat
  tag : String
  description : String
  x_pos : Nat
  y_pos : Nat

/-- Field content of one rendered data-store block. -/
structure DataStoreBlock where
  name : String
  sid : Nat
  tag : String
  description : String
  x_pos : Nat
  y_pos : Nat

/-- Field content of one rendered external-entity boundary block. -/
structure EntityBlock where
  blockType : String
  name : String
  sid : Nat
  tag : String
  description : String
  x_pos : Nat
  y_pos : Nat
  port : Nat

/-- Field content of one rendered connection (`Line`) record. -/
structure LineRecord where
  srcBlock : String
  dstBlock : String
  name : String

/-- The loop body of `_generate_process_blocks`: `enumerate` index `i`,
counter incremented before use, grid position from the index. -/
def process_blocks_loop (block_counter : Nat) (i : Nat) :
    List PEntry → List ProcessBlock × Nat
  | [] => ([], block_counter)
  | process :: rest =>
    let c := block_counter + 1
    let b : ProcessBlock :=
      { name := process.name.getD ("Process_" ++ toString (i + 1))
        sid := c
        tag := process.id.getD ("P" ++ toString (i + 1))
        description := process.description.getD ""
        x_pos := 100 + (i % 4) * 150
        y_pos := 100 + (i / 4) * 100 }
    let r := process_blocks_loop c (i + 1) rest
    (b :: r.1, r.2)

/-- `SimulinkGenerator._generate_process_blocks`. -/
def _generate_process_blocks (block_counter : Nat) (processes : List PEntry) :
    List ProcessBlock × Nat :=
  process_blocks_loop block_counter 0 processes

/-- The loop body of `_generate_datastore_blocks`. -/
def datastore_blocks_loop (block_counter : Nat) (i : Nat) :
    List PEntry → List DataStoreBlock × Nat
  | [] => ([], block_counter)
  | store :: rest =>
    let c := block_counter + 1
    let b : DataStoreBlock :=
      { name := store.name.getD ("DataStore_" ++ toString (i + 1))
        sid := c
        tag := store.id.getD ("D" ++ toString (i + 1))
        description := store.description.getD ""
        x_pos := 500 + (i % 2) * 150
        y_pos := 100 + i * 80 }
    let r := datastore_blocks_loop c (i + 1) rest
    (b :: r.1, r.2)

/-- `SimulinkGenerator._generate_datastore_blocks`. -/
def _generate_datastore_blocks (block_counter : Nat) (data_stores : List PEntry) :
    List DataStoreBlock × Nat :=
  datastore_blocks_loop block_counter 0 data_stores

/-- The loop body of `_generate_entity_blocks`: even index is an Inport
at `x = 50`, odd index an Outport at `x = 750` whose y-formula reuses
`i - 1`; the port number is `i + 1`. -/
def entity_blocks_loop (block_counter : Nat) (i : Nat) :
    List PEntry → List EntityBlock × Nat
  | [] => ([], block_counter)
  | entity :: rest =>
    let c := block_counter + 1
    let bt := if i % 2 = 0 then "Inport" else "Outport"
    let xy : Nat × Nat := if i % 2 = 0 then (50, 200 + i * 60) else (750, 200 + (i - 1) * 60)
    let b : EntityBlock :=
      { blockType := bt
        name := entity.name.getD ("Entity_" ++ toString (i + 1))
        sid := c
        tag := entity.id.getD ("E" ++ toString (i + 1))
        description := entity.description.getD ""
        x_pos := xy.1
        y_pos := xy.2
        port := i + 1 }
    let r := entity_blocks_loop c (i + 1) rest
    (b :: r.1, r.2)

/-- `SimulinkGenerator._generate_entity_blocks`. -/
def _generate_entity_blocks (block_counter : Nat) (entities : List PEntry) :
    List EntityBlock × Nat :=
  entity_blocks_loop block_counter 0 entities

/-- The loop body of `_generate_connections`: the line counter is
incremented but never rendered. -/
def connections_loop (line_counter : Nat) :
    List FlowEntry → List LineRecord × Nat
  | [] => ([], line_counter)
  | flow :: rest =>
    let c := line_counter + 1
    let l : LineRecord :=
      { srcBlock := flow.from_.getD ""
        dstBlock := flow.to_.getD ""
        name := flow.data.getD "" }
    let r := connections_loop c rest
    (l :: r.1, r.2)

/-- `SimulinkGenerator._generate_connections`. -/
def _generate_connections (line_counter : Nat) (data_flows : List FlowEntry) :
    List LineRecord × Nat :=
  connections_loop line_counter data_flows

/-- `SimulinkGenerator._generate_header` with the `datetime.now()`
timestamp passed explicitly. -/
def _generate_header (saveTime : String) : String :=
  "Model \x7b\n  Name                    \"DataFlowDiagram\"\n  Version                 10.0\n  SaveTime                \"" ++
  saveTime ++
  "\"\n  SaveFormat              \"Structure\"\n  PreLoadFcn              \"\"\n  PostLoadFcn             \"\"\n  Model\x7b\n    ModelBrowserVisibility  on\n    ModelBrowserWidth       200\n  \x7d\n  SimulationMode          \"normal\"\n  StartTime               \"0.0\"\n  StopTime                \"10.0\"\n  Solver                  \"ode45\"\n  \n"

/-- `SimulinkGenerator._generate_block_diagram_start`. -/
def _generate_block_diagram_start : String :=
  "  System \x7b\n    Name                    \"DataFlowDiagram\"\n    Location                [100, 100, 900, 600]\n    Open                    on\n    ToolBar                 on\n    StatusBar               on\n    ScreenColor             \"white\"\n    PaperOrientation        \"landscape\"\n    PaperPositionMode       \"auto\"\n    PaperType               \"A4\"\n    ZoomFactor              \"100\"\n    \n"

/-- `SimulinkGenerator._generate_block_diagram_end`. -/
def _generate_block_diagram_end : String :=
  "  \x7d\n\x7d\n"

/-- The process-block f-string. -/
def renderProcessBlock (b : ProcessBlock) : String :=
  "    Block \x7b\n      BlockType               \"SubSystem\"\n      Name                    \"" ++ b.name ++
  "\"\n      SID                     \"" ++ toString b.sid ++
  "\"\n      Tag                     \"" ++ b.tag ++
  "\"\n      Description             \"" ++ b.description ++
  "\"\n      Position                [" ++ toString b.x_pos ++ ", " ++ toString b.y_pos ++
  ", " ++ toString (b.x_pos + 100) ++ ", " ++ toString (b.y_pos + 50) ++
  "]\n      BackgroundColor         \"lightBlue\"\n      ShowName                on\n      TreatAsAtomicUnit       off\n      MinAlgLoopOccurrences   off\n      System \x7b\n        Name                    \"" ++ b.name ++
  "\"\n        Location                [200, 200, 600, 400]\n        Open                    off\n      \x7d\n    \x7d"

/-- The data-store block f-string. -/
def renderDataStoreBlock (b : DataStoreBlock) : String :=
  "    Block \x7b\n      BlockType               \"DataStoreMemory\"\n      Name                    \"" ++ b.name ++
  "\"\n      SID                     \"" ++ toString b.sid ++
  "\"\n      Tag                     \"" ++ b.tag ++
  "\"\n      Description             \"" ++ b.description ++
  "\"\n      Position                [" ++ toString b.x_pos ++ ", " ++ toString b.y_pos ++
  ", " ++ toString (b.x_pos + 120) ++ ", " ++ toString (b.y_pos + 40) ++
  "]\n      BackgroundColor         \"yellow\"\n      ShowName                on\n      DataStoreName           \"" ++ b.name ++
  "_data\"\n      InitialValue            \"0\"\n    \x7d"

/-- The entity-block f-string. -/
def renderEntityBlock (b : EntityBlock) : String :=
  "    Block \x7b\n      BlockType               \"" ++ b.blockType ++
  "\"\n      Name                    \"" ++ b.name ++
  "\"\n      SID                     \"" ++ toString b.sid ++
  "\"\n      Tag                     \"" ++ b.tag ++
  "\"\n      Description             \"" ++ b.description ++
  "\"\n      Position                [" ++ toString b.x_pos ++ ", " ++ toString b.y_pos ++
  ", " ++ toString (b.x_pos + 80) ++ ", " ++ toString (b.y_pos + 30) ++
  "]\n      BackgroundColor         \"green\"\n      ShowName                on\n      Port                    \"" ++ toString b.port ++
  "\"\n    \x7d"

/-- The connection f-string. -/
def renderLine (l : LineRecord) : String :=
  "    Line \x7b\n      SrcBlock                \"" ++ l.srcBlock ++
  "\"\n      SrcPort                 1\n      DstBlock                \"" ++ l.dstBlock ++
  "\"\n      DstPort                 1\n      Name                    \"" ++ l.name ++
  "\"\n    \x7d"

/-- The `mdl_content += item + chr(10)` accumulation loop. -/
def joinPlusNl : List String → String
  | [] => ""
  | b :: bs => b ++ "\n" ++ joinPlusNl bs

/-- `SimulinkGenerator.generate_simulink` with the instance counters and
the timestamp made explicit; returns the MDL text together with the
updated counters. -/
def generate_simulink (st : GenState) (saveTime : String)
    (analysis_result : DiagramModel) : String × GenState :=
  let pr := _generate_process_blocks st.block_counter (analysis_result.processes.getD [])
  let ds := _generate_datastore_blocks pr.2 (analysis_result.data_stores.getD [])
  let en := _generate_entity_blocks ds.2 (analysis_result.external_entities.getD [])
  let cn := _generate_connections st.line_counter (analysis_result.data_flows.getD [])
  let blockStrs :=
    pr.1.map renderProcessBlock ++ ds.1.map renderDataStoreBlock ++ en.1.map renderEntityBlock
  let out :=
    _generate_header saveTime ++ _generate_block_diagram_start ++
    joinPlusNl blockStrs ++ joinPlusNl (cn.1.map renderLine) ++
    _generate_block_diagram_end
  (out, { block_counter := en.2, line_counter := cn.2 })

/-- `SimulinkGenerator.validate_mdl`: containment of the two literal
markers and a trailing `\x7d` after stripping. -/
def validate_mdl (mdl_content : String) : Bool :=
  if !(pyContains mdl_content "Model \x7b") then false
  else if !(pyContains mdl_content "System \x7b") then false
  else if !(pyEndsWith (pyStrip mdl_content) "\x7d") then false
  else true

/-- A `{id, name, description}` record as the JSON dictionary it came
from (present keys only). -/
def entryToDict (e : PEntry) : List (String × JVal) :=
  (match e.id with | some v => [("id", JVal.str v)] | none => []) ++
  (match e.name with | some v => [("name", JVal.str v)] | none => []) ++
  (match e.description with | some v => [("description", JVal.str v)] | none => [])

/-- A data-flow record as the JSON dictionary it came from. -/
def flowToDict (f : FlowEntry) : List (String × JVal) :=
  (match f.id with | some v => [("id", JVal.str v)] | none => []) ++
  (match f.from_ with | some v => [("from", JVal.str v)] | none => []) ++
  (match f.to_ with | some v => [("to", JVal.str v)] | none => []) ++
  (match f.data with | some v => [("data", JVal.str v)] | none => [])

/-- A DiagramModel as the JSON dictionary it came from: this is the value
on which `validate_analysis` and `generate_simulink` both operate in the
source. -/
def DiagramModel.toDict (m : DiagramModel) : List (String × JVal) :=
  (match m.processes with
   | some l => [("processes", JVal.arr (l.map (fun e => JVal.obj (entryToDict e))))]
   | none => []) ++
  (match m.data_stores with
   | some l => [("data_stores", JVal.arr (l.map (fun e => JVal.obj (entryToDict e))))]
   | none => []) ++
  (match m.external_entities with
   | some l => [("external_entities", JVal.arr (l.map (fun e => JVal.obj (entryToDict e))))]
   | none => []) ++
  (match m.data_flows with
   | some l => [("data_flows", JVal.arr (l.map (fun f => JVal.obj (flowToDict f))))]
   | none => []) ++
  (match m.system_overview with
   | some v => [("system_overview", JVal.str v)]
   | none => [])

/-- The process-block list used inside `generate_simulink`. -/
def sim_process_part (st : GenState) (m : DiagramModel) : List ProcessBlock × Nat :=
  _generate_process_blocks st.block_counter (m.processes.getD [])

/-- The data-store block list used inside `generate_simulink`. -/
def sim_datastore_part (st : GenState) (m : DiagramModel) : List DataStoreBlock × Nat :=
  _generate_datastore_blocks (sim_process_part st m).2 (m.data_stores.getD [])

/-- The entity block list used inside `generate_simulink`. -/
def sim_entity_part (st : GenState) (m : DiagramModel) : List EntityBlock × Nat :=
  _generate_entity_blocks (sim_datastore_part st m).2 (m.external_entities.getD [])

/-- The connection list used inside `generate_simulink`. -/
def sim_connection_part (st : GenState) (m : DiagramModel) : List LineRecord × Nat :=
  _generate_connections st.line_counter (m.data_flows.getD [])

/-- All SID values of one render call, in emission order. -/
def sim_block_sids (st : GenState) (m : DiagramModel) : List Nat :=
  (sim_process_part st m).1.map ProcessBlock.sid ++
  (sim_datastore_part st m).1.map DataStoreBlock.sid ++
  (sim_entity_part st m).1.map EntityBlock.sid

theorem process_blocks_loop_spec (ps : List PEntry) : ∀ c i : Nat,
    (process_blocks_loop c i ps).1.length = ps.length ∧
    (process_blocks_loop c i ps).2 = c + ps.length ∧
    (process_blocks_loop c i ps).1.map ProcessBlock.sid = List.range' (c + 1) ps.length := by
  induction ps with
  | nil => intro c i; simp [process_blocks_loop]
  | cons p ps ih =>
    intro c i
    obtain ⟨h1, h2, h3⟩ := ih (c + 1) (i + 1)
    refine ⟨?_, ?_, ?_⟩
    · simp [process_blocks_loop, h1]
    · simp [process_blocks_loop, h2]; omega
    · simp [process_blocks_loop, h3, List.range'_succ]

theorem datastore_blocks_loop_spec (ps : List PEntry) : ∀ c i : Nat,
    (datastore_blocks_loop c i ps).1.length = ps.length ∧
    (datastore_blocks_loop c i ps).2 = c + ps.length ∧
    (datastore_blocks_loop c i ps).1.map DataStoreBlock.sid = List.range' (c + 1) ps.length := by
  induction ps with
  | nil => intro c i; simp [datastore_blocks_loop]
  | cons p ps ih =>
    intro c i
    obtain ⟨h1, h2, h3⟩ := ih (c + 1) (i + 1)
    refine ⟨?_, ?_, ?_⟩
    · simp [datastore_blocks_loop, h1]
    · simp [datastore_blocks_loop, h2]; omega
    · simp [datastore_blocks_loop, h3, List.range'_succ]

theorem entity_blocks_loop_spec (ps : List PEntry) : ∀ c i : Nat,
    (entity_blocks_loop c i ps).1.length = ps.length ∧
    (entity_blocks_loop c i ps).2 = c + ps.length ∧
    (entity_blocks_loop c i ps).1.map EntityBlock.sid = List.range' (c + 1) ps.length := by
  induction ps with
  | nil => intro c i; simp [entity_blocks_loop]
  | cons p ps ih =>
    intro c i
    obtain ⟨h1, h2, h3⟩ := ih (c + 1) (i + 1)
    refine ⟨?_, ?_, ?_⟩
    · simp [entity_blocks_loop, h1]
    · simp [entity_blocks_loop, h2]; omega
    · simp [entity_blocks_loop, h3, List.range'_succ]

theorem connections_loop_spec (fs : List FlowEntry) : ∀ c : Nat,
    (connections_loop c fs).1.length = fs.length ∧
    (connections_loop c fs).2 = c + fs.length := by
  induction fs with
  | nil => intro c; simp [connections_loop]
  | cons f fs ih =>
    intro c
    obtain ⟨h1, h2⟩ := ih (c + 1)
    refine ⟨?_, ?_⟩
    · simp [connections_loop, h1]
    · simp [connections_loop, h2]; omega

theorem sim_block_sids_eq (st : GenState) (m : DiagramModel) :
    sim_block_sids st m =
      List.range' (st.block_counter + 1)
        ((m.processes.getD []).length + (m.data_stores.getD []).length +
          (m.external_entities.getD []).length) := by
  simp only [sim_block_sids, sim_process_part, sim_datastore_part, sim_entity_part,
    _generate_process_blocks, _generate_datastore_blocks, _generate_entity_blocks]
  obtain ⟨p1, p2, p3⟩ := process_blocks_loop_spec (m.processes.getD []) st.block_counter 0
  obtain ⟨d1, d2, d3⟩ := datastore_blocks_loop_spec (m.data_stores.getD [])
    (process_blocks_loop st.block_counter 0 (m.processes.getD [])).2 0
  obtain ⟨e1, e2, e3⟩ := entity_blocks_loop_spec (m.external_entities.getD [])
    (datastore_blocks_loop (process_blocks_loop st.block_counter 0 (m.processes.getD [])).2 0
      (m.data_stores.getD [])).2 0
  rw [p3, d3, e3, d2, p2]
  have h1 : st.block_counter + (m.processes.getD []).length + 1
      = st.block_counter + 1 + (m.processes.getD []).length := by omega
  have h2 : st.block_counter + (m.processes.getD []).length + (m.data_stores.getD []).length + 1
      = st.block_counter + 1 +
        ((m.data_stores.getD []).length + (m.processes.getD []).length) := by omega
  rw [h1, List.range'_append_1, h2, List.range'_append_1]
  congr 1
  omega

/-- C1: each render call emits one process block per process, one
data-store block per data store, one entity block per external entity
and one connection per data flow; the SID sequence over all blocks is
exactly the next N+M+K counter values, strictly increasing and without
reuse, and the counters advance accordingly. -/
theorem c1_block_and_line_counts (st : GenState) (t : String) (m : DiagramModel) :
    (sim_process_part st m).1.length + (sim_datastore_part st m).1.length +
        (sim_entity_part st m).1.length =
      (m.processes.getD []).length + (m.data_stores.getD []).length +
        (m.external_entities.getD []).length ∧
    (sim_connection_part st m).1.length = (m.data_flows.getD []).length ∧
    sim_block_sids st m =
      List.range' (st.block_counter + 1)
        ((m.processes.getD []).length + (m.data_stores.getD []).length +
          (m.external_entities.getD []).length) ∧
    (sim_block_sids st m).Pairwise (· < ·) ∧
    (sim_block_sids st m).Nodup ∧
    (generate_simulink st t m).2.block_counter =
      st.block_counter + ((m.processes.getD []).length + (m.data_stores.getD []).length +
        (m.external_entities.getD []).length) ∧
    (generate_simulink st t m).2.line_counter =
      st.line_counter + (m.data_flows.getD []).length := by
  obtain ⟨p1, p2, p3⟩ := process_blocks_loop_spec (m.processes.getD []) st.block_counter 0
  obtain ⟨d1, d2, d3⟩ := datastore_blocks_loop_spec (m.data_stores.getD [])
    (process_blocks_loop st.block_counter 0 (m.processes.getD [])).2 0
  obtain ⟨e1, e2, e3⟩ := entity_blocks_loop_spec (m.external_entities.getD [])
    (datastore_blocks_loop (process_blocks_loop st.block_counter 0 (m.processes.getD [])).2 0
      (m.data_stores.getD [])).2 0
  obtain ⟨f1, f2⟩ := connections_loop_spec (m.data_flows.getD []) st.line_counter
  refine ⟨?_, ?_, sim_block_sids_eq st m, ?_, ?_, ?_, ?_⟩
  · simp only [sim_process_part, sim_datastore_part, sim_entity_part,
      _generate_process_blocks, _generate_datastore_blocks, _generate_entity_blocks]
    rw [p1, d1, e1]
  · simp only [sim_connection_part, _generate_connections]
    rw [f1]
  · rw [sim_block_sids_eq st m]; exact List.pairwise_lt_range' _ _
  · rw [sim_block_sids_eq st m]; exact List.nodup_range' _ _
  · have hb : (generate_simulink st t m).2.block_counter =
        (entity_blocks_loop (datastore_blocks_loop (process_blocks_loop st.block_counter 0
          (m.processes.getD [])).2 0 (m.data_stores.getD [])).2 0
          (m.external_entities.getD [])).2 := rfl
    rw [hb]; omega
  · have hl : (generate_simulink st t m).2.line_counter =
        (connections_loop st.line_counter (m.data_flows.getD [])).2 := rfl
    rw [hl]; omega

theorem process_blocks_loop_getElem (ps : List PEntry) : ∀ (c i j : Nat) (p : PEntry),
    ps[j]? = some p →
    (process_blocks_loop c i ps).1[j]? = some
      { name := p.name.getD ("Process_" ++ toString (i + j + 1))
        sid := c + j + 1
        tag := p.id.getD ("P" ++ toString (i + j + 1))
        description := p.description.getD ""
        x_pos := 100 + ((i + j) % 4) * 150
        y_pos := 100 + ((i + j) / 4) * 100 } := by
  induction ps with
  | nil => intro c i j p h; simp at h
  | cons q ps ih =>
    intro c i j p h
    cases j with
    | zero =>
      rw [List.getElem?_cons_zero] at h
      cases h
      simp [process_blocks_loop]
    | succ j =>
      rw [List.getElem?_cons_succ] at h
      have h2 := ih (c + 1) (i + 1) j p h
      have e1 : i + 1 + j = i + (j + 1) := by omega
      have e2 : c + 1 + j + 1 = c + (j + 1) + 1 := by omega
      rw [e1, e2] at h2
      show (process_blocks_loop c i (q :: ps)).1[j + 1]? = _
      simp only [process_blocks_loop, List.getElem?_cons_succ]
      exact h2

theorem datastore_blocks_loop_getElem (ps : List PEntry) : ∀ (c i j : Nat) (p : PEntry),
    ps[j]? = some p →
    (datastore_blocks_loop c i ps).1[j]? = some
      { name := p.name.getD ("DataStore_" ++ toString (i + j + 1))
        sid := c + j + 1
        tag := p.id.getD ("D" ++ toString (i + j + 1))
        description := p.description.getD ""
        x_pos := 500 + ((i + j) % 2) * 150
        y_pos := 100 + (i + j) * 80 } := by
  induction ps with
  | nil => intro c i j p h; simp at h
  | cons q ps ih =>
    intro c i j p h
    cases j with
    | zero =>
      rw [List.getElem?_cons_zero] at h
      cases h
      simp [datastore_blocks_loop]
    | succ j =>
      rw [List.getElem?_cons_succ] at h
      have h2 := ih (c + 1) (i + 1) j p h
      have e1 : i + 1 + j = i + (j + 1) := by omega
      have e2 : c + 1 + j + 1 = c + (j + 1) + 1 := by omega
      rw [e1, e2] at h2
      show (datastore_blocks_loop c i (q :: ps)).1[j + 1]? = _
      simp only [datastore_blocks_loop, List.getElem?_cons_succ]
      exact h2

theorem entity_blocks_loop_getElem (ps : List PEntry) : ∀ (c i j : Nat) (p : PEntry),
    ps[j]? = some p →
    (entity_blocks_loop c i ps).1[j]? = some
      { blockType := if (i + j) % 2 = 0 then "Inport" else "Outport"
        name := p.name.getD ("Entity_" ++ toString (i + j + 1))
        sid := c + j + 1
        tag := p.id.getD ("E" ++ toString (i + j + 1))
        description := p.description.getD ""
        x_pos := if (i + j) % 2 = 0 then 50 else 750
        y_pos := if (i + j) % 2 = 0 then 200 + (i + j) * 60 else 200 + (i + j - 1) * 60
        port := i + j + 1 } := by
  induction ps with
  | nil => intro c i j p h; simp at h
  | cons q ps ih =>
    intro c i j p h
    cases j with
    | zero =>
      rw [List.getElem?_cons_zero] at h
      cases h
      simp only [entity_blocks_loop, List.getElem?_cons_zero, Nat.add_zero]
      by_cases hpar : i % 2 = 0 <;> simp [hpar, apply_ite]
    | succ j =>
      rw [List.getElem?_cons_succ] at h
      have h2 := ih (c + 1) (i + 1) j p h
      have e1 : i + 1 + j = i + (j + 1) := by omega
      have e2 : c + 1 + j + 1 = c + (j + 1) + 1 := by omega
      rw [e1, e2] at h2
      show (entity_blocks_loop c i (q :: ps)).1[j + 1]? = _
      simp only [entity_blocks_loop, List.getElem?_cons_succ]
      exact h2

/-- C3: the i-th process block sits on the four-column grid, and the j-th
entity block alternates Inport/Outport by index parity with the odd-index
y-formula reusing `j - 1` and a port number of `j + 1`. -/
theorem c3_grid_and_port_rules (c c2 : Nat) (procs ents : List PEntry) (i j : Nat)
    (p q : PEntry) (hp : procs[i]? = some p) (hq : ents[j]? = some q) :
    (∃ b, (_generate_process_blocks c procs).1[i]? = some b ∧
       b.x_pos = 100 + (i % 4) * 150 ∧ b.y_pos = 100 + (i / 4) * 100) ∧
    (∃ b, (_generate_entity_blocks c2 ents).1[j]? = some b ∧
       b.port = j + 1 ∧
       (j % 2 = 0 → b.blockType = "Inport" ∧ b.x_pos = 50 ∧ b.y_pos = 200 + j * 60) ∧
       (j % 2 = 1 → b.blockType = "Outport" ∧ b.x_pos = 750 ∧
         b.y_pos = 200 + (j - 1) * 60)) := by
  constructor
  · refine ⟨_, process_blocks_loop_getElem procs c 0 i p hp, ?_, ?_⟩ <;> simp
  · refine ⟨_, entity_blocks_loop_getElem ents c2 0 j q hq, ?_, ?_, ?_⟩
    · simp
    · intro hpar; simp [Nat.zero_add, hpar]
    · intro hpar
      have : ¬ (j % 2 = 0) := by omega
      simp [Nat.zero_add, this]

/-- Witness for C3 at a five-process, two-entity model exercising the
second grid row and the Outport branch. -/
theorem c3_witness :
    (∃ b, (_generate_process_blocks 0
        [⟨none, none, none⟩, ⟨none, none, none⟩, ⟨none, none, none⟩,
         ⟨none, none, none⟩, ⟨none, none, none⟩]).1[4]? = some b ∧
       b.x_pos = 100 + (4 % 4) * 150 ∧ b.y_pos = 100 + (4 / 4) * 100) ∧
    (∃ b, (_generate_entity_blocks 5 [⟨none, none, none⟩, ⟨none, none, none⟩]).1[1]? = some b ∧
       b.port = 1 + 1 ∧
       (1 % 2 = 0 → b.blockType = "Inport" ∧ b.x_pos = 50 ∧ b.y_pos = 200 + 1 * 60) ∧
       (1 % 2 = 1 → b.blockType = "Outport" ∧ b.x_pos = 750 ∧
         b.y_pos = 200 + (1 - 1) * 60)) :=
  c3_grid_and_port_rules 0 5
    [⟨none, none, none⟩, ⟨none, none, none⟩, ⟨none, none, none⟩,
     ⟨none, none, none⟩, ⟨none, none, none⟩]
    [⟨none, none, none⟩, ⟨none, none, none⟩] 4 1 ⟨none, none, none⟩ ⟨none, none, none⟩
    rfl rfl

set_option maxRecDepth 20000 in
/-- Counterexample to C8 as stated: two successive render calls on the
same generator instance (the second starting from the counter state the
first left behind) disagree on the same input model, because the SIDs
continue from the advanced counter. -/
theorem c8_counterexample_not_pure :
    ((generate_simulink ⟨0, 0⟩ "" ⟨some [⟨none, none, none⟩], none, none, none, none⟩).1 ==
      (generate_simulink
        (generate_simulink ⟨0, 0⟩ "" ⟨some [⟨none, none, none⟩], none, none, none, none⟩).2
        "" ⟨some [⟨none, none, none⟩], none, none, none, none⟩).1) = false := by
  decide

/-- C8 amended: with the generator counter state and the timestamp held
fixed, render is deterministic in the model, and a record with every
optional key absent is rendered with the positional default name, id tag
and empty description for each block kind. -/
theorem c8_deterministic_and_defaults :
    (∀ (st st2 : GenState) (t t2 : String) (m m2 : DiagramModel),
       st = st2 → t = t2 → m = m2 →
       (generate_simulink st t m).1 = (generate_simulink st2 t2 m2).1) ∧
    (∀ (c i : Nat) (procs : List PEntry), procs[i]? = some ⟨none, none, none⟩ →
       ∃ b, (_generate_process_blocks c procs).1[i]? = some b ∧
         b.name = "Process_" ++ toString (i + 1) ∧ b.tag = "P" ++ toString (i + 1) ∧
         b.description = "") ∧
    (∀ (c i : Nat) (stores : List PEntry), stores[i]? = some ⟨none, none, none⟩ →
       ∃ b, (_generate_datastore_blocks c stores).1[i]? = some b ∧
         b.name = "DataStore_" ++ toString (i + 1) ∧ b.tag = "D" ++ toString (i + 1) ∧
         b.description = "") ∧
    (∀ (c i : Nat) (ents : List PEntry), ents[i]? = some ⟨none, none, none⟩ →
       ∃ b, (_generate_entity_blocks c ents).1[i]? = some b ∧
         b.name = "Entity_" ++ toString (i + 1) ∧ b.tag = "E" ++ toString (i + 1) ∧
         b.description = "") := by
  refine ⟨?_, ?_, ?_, ?_⟩
  · intro st st2 t t2 m m2 h1 h2 h3; rw [h1, h2, h3]
  · intro c i procs h
    refine ⟨_, process_blocks_loop_getElem procs c 0 i ⟨none, none, none⟩ h, ?_, ?_, ?_⟩ <;> simp
  · intro c i stores h
    refine ⟨_, datastore_blocks_loop_getElem stores c 0 i ⟨none, none, none⟩ h, ?_, ?_, ?_⟩ <;> simp
  · intro c i ents h
    refine ⟨_, entity_blocks_loop_getElem ents c 0 i ⟨none, none, none⟩ h, ?_, ?_, ?_⟩ <;> simp

/-- Witness for C8: the default-name components applied at index zero of
singleton collections. -/
theorem c8_witness :
    (∃ b, (_generate_process_blocks 0 [⟨none, none, none⟩]).1[0]? = some b ∧
       b.name = "Process_" ++ toString (0 + 1) ∧ b.tag = "P" ++ toString (0 + 1) ∧
       b.description = "") ∧
    (∃ b, (_generate_entity_blocks 0 [⟨none, none, none⟩]).1[0]? = some b ∧
       b.name = "Entity_" ++ toString (0 + 1) ∧ b.tag = "E" ++ toString (0 + 1) ∧
       b.description = "") :=
  ⟨c8_deterministic_and_defaults.2.1 0 0 [⟨none, none, none⟩] rfl,
   c8_deterministic_and_defaults.2.2.2 0 0 [⟨none, none, none⟩] rfl⟩

/-- C10: the render output never reads `system_overview`: two models equal
on the four rendered collections produce identical output text and
counter state even when their overviews differ. -/
theorem c10_overview_noninterference (st : GenState) (t : String) (m1 m2 : DiagramModel)
    (hp : m1.processes = m2.processes) (hd : m1.data_stores = m2.data_stores)
    (he : m1.external_entities = m2.external_entities) (hf : m1.data_flows = m2.data_flows) :
    generate_simulink st t m1 = generate_simulink st t m2 := by
  cases m1
  cases m2
  simp only at hp hd he hf
  subst hp; subst hd; subst he; subst hf
  rfl

/-- Witness for C10 at two concrete models that differ only in their
overview strings. -/
theorem c10_witness :
    generate_simulink ⟨0, 0⟩ "t"
        ⟨some [⟨some "P1", some "n", some "d"⟩], some [], some [],
         some [⟨some "F1", some "P1", some "P1", some "x"⟩], some "overview one"⟩ =
      generate_simulink ⟨0, 0⟩ "t"
        ⟨some [⟨some "P1", some "n", some "d"⟩], some [], some [],
         some [⟨some "F1", some "P1", some "P1", some "x"⟩], some "overview two"⟩ :=
  c10_overview_noninterference ⟨0, 0⟩ "t"
    ⟨some [⟨some "P1", some "n", some "d"⟩], some [], some [],
     some [⟨some "F1", some "P1", some "P1", some "x"⟩], some "overview one"⟩
    ⟨some [⟨some "P1", some "n", some "d"⟩], some [], some [],
     some [⟨some "F1", some "P1", some "P1", some "x"⟩], some "overview two"⟩
    rfl rfl rfl rfl

theorem pyContains_of_infix {s sub : String} (h : sub.data <:+: s.data) :
    pyContains s sub = true :=
  decide_eq_true h

theorem pyEndsWith_of_suffix {s suf : String} (h : suf.data <:+ s.data) :
    pyEndsWith s suf = true :=
  decide_eq_true h

set_option maxRecDepth 100000 in
theorem generate_simulink_data_shape (st : GenState) (t : String) (m : DiagramModel) :
    (generate_simulink st t m).1.data =
      "Model \x7b\n  Name                    \"DataFlowDiagram\"\n  Version                 10.0\n  SaveTime                \"".data ++
      (t.data ++
        ("\"\n  SaveFormat              \"Structure\"\n  PreLoadFcn              \"\"\n  PostLoadFcn             \"\"\n  Model\x7b\n    ModelBrowserVisibility  on\n    ModelBrowserWidth       200\n  \x7d\n  SimulationMode          \"normal\"\n  StartTime               \"0.0\"\n  StopTime                \"10.0\"\n  Solver                  \"ode45\"\n  \n".data ++
          (_generate_block_diagram_start.data ++
            ((joinPlusNl ((sim_process_part st m).1.map renderProcessBlock ++
                (sim_datastore_part st m).1.map renderDataStoreBlock ++
                (sim_entity_part st m).1.map renderEntityBlock)).data ++
              ((joinPlusNl ((sim_connection_part st m).1.map renderLine)).data ++
                "  \x7d\n\x7d\n".data))))) := by
  simp only [generate_simulink, _generate_header, _generate_block_diagram_end,
    sim_process_part, sim_datastore_part, sim_entity_part, sim_connection_part,
    _generate_process_blocks, _generate_datastore_blocks, _generate_entity_blocks,
    _generate_connections, String.data_append, List.append_assoc]

set_option maxRecDepth 100000 in
theorem generate_simulink_data_end (st : GenState) (t : String) (m : DiagramModel) :
    (generate_simulink st t m).1.data =
      (_generate_header t ++ _generate_block_diagram_start ++
        joinPlusNl ((sim_process_part st m).1.map renderProcessBlock ++
          (sim_datastore_part st m).1.map renderDataStoreBlock ++
          (sim_entity_part st m).1.map renderEntityBlock) ++
        joinPlusNl ((sim_connection_part st m).1.map renderLine)).data ++
      "  \x7d\n\x7d\n".data := by
  simp only [generate_simulink, _generate_block_diagram_end,
    sim_process_part, sim_datastore_part, sim_entity_part, sim_connection_part,
    _generate_process_blocks, _generate_datastore_blocks, _generate_entity_blocks,
    _generate_connections, String.data_append, List.append_assoc]

theorem isInfix_append_right_of {l m post : List Char} (h : l <:+: m) :
    l <:+: m ++ post :=
  h.trans (List.prefix_append m post).isInfix

theorem isInfix_append_left_of {l m : List Char} (pre : List Char) (h : l <:+: m) :
    l <:+: pre ++ m :=
  h.trans (List.suffix_append pre m).isInfix

set_option maxRecDepth 100000 in
theorem validate_mdl_generate_simulink (st : GenState) (t : String) (m : DiagramModel) :
    validate_mdl (generate_simulink st t m).1 = true := by
  have hA : pyContains (generate_simulink st t m).1 "Model \x7b" = true := by
    apply pyContains_of_infix
    apply List.IsPrefix.isInfix
    rw [generate_simulink_data_shape]
    exact List.IsPrefix.trans (by decide) (List.prefix_append _ _)
  have hB : pyContains (generate_simulink st t m).1 "System \x7b" = true := by
    apply pyContains_of_infix
    rw [generate_simulink_data_shape]
    have hS : "System \x7b".data <:+: _generate_block_diagram_start.data := by decide
    exact isInfix_append_left_of _ (isInfix_append_left_of _ (isInfix_append_left_of _
      (isInfix_append_right_of hS)))
  have hC : pyEndsWith (pyStrip (generate_simulink st t m).1) "\x7d" = true := by
    have hhead : (generate_simulink st t m).1.data.dropWhile pyIsSpace =
        (generate_simulink st t m).1.data := by
      rw [generate_simulink_data_shape, List.dropWhile_append]
      have h1 : "Model \x7b\n  Name                    \"DataFlowDiagram\"\n  Version                 10.0\n  SaveTime                \"".data.dropWhile pyIsSpace =
          "Model \x7b\n  Name                    \"DataFlowDiagram\"\n  Version                 10.0\n  SaveTime                \"".data := by decide
      rw [h1]
      have h2 : "Model \x7b\n  Name                    \"DataFlowDiagram\"\n  Version                 10.0\n  SaveTime                \"".data.isEmpty = false := by decide
      rw [h2]
      simp
    have htail : ((generate_simulink st t m).1.data.reverse.dropWhile pyIsSpace) =
        '\x7d' :: ('\n' :: '\x7d' :: ' ' :: ' ' ::
          (_generate_header t ++ _generate_block_diagram_start ++
            joinPlusNl ((sim_process_part st m).1.map renderProcessBlock ++
              (sim_datastore_part st m).1.map renderDataStoreBlock ++
              (sim_entity_part st m).1.map renderEntityBlock) ++
            joinPlusNl ((sim_connection_part st m).1.map renderLine)).data.reverse) := by
      rw [generate_simulink_data_end, List.reverse_append]
      have h2 : "  \x7d\n\x7d\n".data.reverse = ['\n', '\x7d', '\n', '\x7d', ' ', ' '] := by
        decide
      rw [h2]
      simp only [List.cons_append, List.nil_append]
      rw [List.dropWhile_cons_of_pos (by decide : pyIsSpace '\n' = true),
        List.dropWhile_cons_of_neg (by decide)]
    unfold pyStrip
    rw [hhead, htail]
    apply pyEndsWith_of_suffix
    rw [List.reverse_cons]
    exact List.suffix_append _ _
  simp [validate_mdl, hA, hB, hC]

/-- C2: any model passing the structural validator renders to MDL text
that passes the MDL validator (in fact every render output does: the
header, system section and closing braces are always emitted). -/
theorem c2_validate_roundtrip (st : GenState) (t : String) (m : DiagramModel)
    (_h : validate_analysis m.toDict = some true) :
    validate_mdl (generate_simulink st t m).1 = true :=
  validate_mdl_generate_simulink st t m

/-- Witness for C2 at a one-process, one-flow model accepted by
`validate_analysis`. -/
theorem c2_witness :
    validate_analysis (DiagramModel.toDict
        ⟨some [⟨some "P1", some "n", some "d"⟩], some [], some [],
         some [⟨some "F1", some "P1", some "P1", some "x"⟩], some "ov"⟩) = some true ∧
    validate_mdl (generate_simulink ⟨0, 0⟩ "t"
        ⟨some [⟨some "P1", some "n", some "d"⟩], some [], some [],
         some [⟨some "F1", some "P1", some "P1", some "x"⟩], some "ov"⟩).1 = true :=
  ⟨by decide,
   c2_validate_roundtrip ⟨0, 0⟩ "t"
     ⟨some [⟨some "P1", some "n", some "d"⟩], some [], some [],
      some [⟨some "F1", some "P1", some "P1", some "x"⟩], some "ov"⟩ (by decide)⟩

set_option maxRecDepth 1000000 in
/-- C4: on the canonical three-section model output the template pass
returns exactly the two fixed opening lines, a blank line, and each
header followed by its single content line, with blank lines after
sections one and two only. -/
theorem c4_template_reconstruction :
    _format_to_overview_template
        "① モデル化対象\nfoo\n\n② モデル化の範囲・抽象度\nbar\n\n③ モデル化した機能\nbaz" =
      "概要\n以下に本システムの概要を示す。\n\n① モデル化対象\nfoo\n\n② モデル化の範囲・抽象度\nbar\n\n③ モデル化した機能\nbaz" := by
  rfl

set_option maxRecDepth 1000000 in
/-- Counterexample to C5: on input containing only section one, the
template pass emits the ① header and its content but does not emit the
② or ③ headers at all. -/
theorem c5_counterexample_missing_headers_dropped :
    pyContains (_format_to_overview_template "① モデル化対象\nfoo") "② モデル化の範囲・抽象度" = false ∧
    pyContains (_format_to_overview_template "① モデル化対象\nfoo") "③ モデル化した機能" = false := by
  constructor <;> rfl

set_option maxRecDepth 1000000 in
/-- C5 amended: with only section ① present, the output is the fixed
opening, the ① header and its content line followed by one blank line;
the missing headers ② and ③ are omitted entirely. -/
theorem c5_amended_only_first_section :
    _format_to_overview_template "① モデル化対象\nfoo" =
      "概要\n以下に本システムの概要を示す。\n\n① モデル化対象\nfoo\n" ∧
    pyContains (_format_to_overview_template "① モデル化対象\nfoo") "① モデル化対象" = true := by
  constructor <;> rfl

/-- Counterexample to C9: the empty input string is returned unchanged,
so it does not begin with the fixed opening lines. -/
theorem c9_counterexample_empty_input :
    _format_to_overview_template "" = "" ∧
    "概要".isPrefixOf (_format_to_overview_template "") = false := by
  constructor <;> rfl

/-- C9 amended: every output for a non-empty input starts with the fixed
title line, the fixed sentence and a blank line (the remainder is empty
or starts at the following line break). -/
theorem c9_amended_fixed_opening (s : String) (h : s ≠ "") :
    ∃ rest, _format_to_overview_template s =
      "概要\n以下に本システムの概要を示す。\n" ++ rest ∧
      (rest = "" ∨ ∃ u, rest = "\n" ++ u) := by
  have hgoal : _format_to_overview_template s =
      pyJoin "\n" (["概要", "以下に本システムの概要を示す。", ""] ++
        sectionLoop (reSplitHeaders (pyStrip (pyReplace (pyReplace s "\r\n" "\n") "\r" "\n")))) := by
    unfold _format_to_overview_template
    rw [if_neg h]
  rw [hgoal]
  cases hL : sectionLoop (reSplitHeaders
      (pyStrip (pyReplace (pyReplace s "\r\n" "\n") "\r" "\n"))) with
  | nil =>
    refine ⟨"", ?_, Or.inl rfl⟩
    rfl
  | cons r rs =>
    refine ⟨"\n" ++ pyJoin "\n" (r :: rs), ?_, Or.inr ⟨_, rfl⟩⟩
    rw [show ("概要\n以下に本システムの概要を示す。\n" : String) =
      "概要" ++ "\n" ++ ("以下に本システムの概要を示す。" ++ "\n") from rfl]
    simp only [List.cons_append, List.nil_append, pyJoin, String.append_assoc,
      String.empty_append]

/-- Witness for C9 amended at a non-empty input. -/
theorem c9_witness :
    ∃ rest, _format_to_overview_template "x" =
      "概要\n以下に本システムの概要を示す。\n" ++ rest ∧
      (rest = "" ∨ ∃ u, rest = "\n" ++ u) :=
  c9_amended_fixed_opening "x" (by decide)

/-- Counterexample to C6: for text that contains braces but whose
delimited substring is not valid JSON, the parser does not raise the
excerpt-carrying error the claim describes: the inner `json.loads`
raises a `json.JSONDecodeError`, which `analyze_image` wraps with
`str(e)` — no truncated excerpt of the raw text appears.  The
excerpt-carrying ValueError is reserved for inputs without braces. -/
theorem c6_counterexample_braced_garbage_has_no_excerpt :
    json_loads "\x7binvalid\x7d" = none ∧
    parse_model_output "\x7binvalid\x7d" = Except.error (PyErr.jsonDecodeError "") ∧
    analyze_image (Except.ok "\x7binvalid\x7d") (Except.ok "") =
      Except.error (PyErr.exception
        ("画像解析中にエラーが発生しました: " ++ pyStr (PyErr.jsonDecodeError ""))) := by
  refine ⟨?_, ?_, ?_⟩ <;> rfl

set_option maxRecDepth 1000000 in
/-- C6 amended: direct JSON parsing of commented model output fails; the
repair step recovers the object between the outermost braces; the
recovered object with empty `processes` fails `validate_analysis`; a
direct parse that succeeds is passed through.  On failure of the repair
step the raised error depends on the failure: when the text has no
braces, a ValueError carrying the 200-character excerpt of the raw text;
when the braces are present but their substring is unparsable, a JSON
decode error that carries no excerpt. -/
theorem c6_json_repair_and_validation :
    json_loads "here is the result: \x7b\"processes\":[],\"data_stores\":[],\"external_entities\":[],\"data_flows\":[],\"system_overview\":\"x\"\x7d\nthanks" = none ∧
    parse_model_output "here is the result: \x7b\"processes\":[],\"data_stores\":[],\"external_entities\":[],\"data_flows\":[],\"system_overview\":\"x\"\x7d\nthanks" =
      Except.ok (JVal.obj
        [("processes", JVal.arr []), ("data_stores", JVal.arr []),
         ("external_entities", JVal.arr []), ("data_flows", JVal.arr []),
         ("system_overview", JVal.str "x")]) ∧
    validate_analysis
        [("processes", JVal.arr []), ("data_stores", JVal.arr []),
         ("external_entities", JVal.arr []), ("data_flows", JVal.arr []),
         ("system_overview", JVal.str "x")] = some false ∧
    parse_model_output "\x7b\"a\": 1\x7d" = Except.ok (JVal.obj [("a", JVal.num 1)]) ∧
    parse_model_output "no braces at all" =
      Except.error (PyErr.valueError
        ("モデル出力がJSONではありません: " ++ pyTake "no braces at all" 200)) ∧
    parse_model_output "oops \x7bnot json\x7d done" =
      Except.error (PyErr.jsonDecodeError "") := by
  refine ⟨?_, ?_, ?_, ?_, ?_, ?_⟩ <;> rfl

/-- C7: for both extraction and summarisation the fallback interface is
consulted exactly when the primary call raises `AttributeError`
(capability absence), and its outcome — success or failure — is returned
untouched; a content failure or any other primary exception never
reaches the fallback but is wrapped and re-raised, so no model-call
failure is silently swallowed. -/
theorem c7_fallback_only_on_capability_absence :
    (∀ (msg : String) (fb : Except PyErr String),
       analyze_image (Except.error (PyErr.attributeError msg)) fb = _analyze_image_fallback fb) ∧
    (∀ (out : String) (fb fb2 : Except PyErr String),
       analyze_image (Except.ok out) fb = analyze_image (Except.ok out) fb2) ∧
    (∀ (out : String) (fb : Except PyErr String),
       analyze_image (Except.ok out) fb =
         match parse_model_output out with
         | Except.ok v => Except.ok v
         | Except.error e =>
             Except.error (PyErr.exception ("画像解析中にエラーが発生しました: " ++ pyStr e))) ∧
    (∀ (msg : String) (fb : Except PyErr String),
       analyze_image (Except.error (PyErr.exception msg)) fb =
         Except.error (PyErr.exception ("画像解析中にエラーが発生しました: " ++ msg))) ∧
    (∀ (msg : String) (fb : Except PyErr String),
       analyze_image (Except.error (PyErr.valueError msg)) fb =
         Except.error (PyErr.exception ("画像解析中にエラーが発生しました: " ++ msg))) ∧
    (∀ (msg : String) (fb : Except PyErr String),
       analyze_image (Except.error (PyErr.jsonDecodeError msg)) fb =
         Except.error (PyErr.exception ("画像解析中にエラーが発生しました: " ++ msg))) ∧
    (∀ (e : PyErr), _analyze_image_fallback (Except.error e) = Except.error e) ∧
    (∀ (msg : String) (fb : Except PyErr String),
       generate_summary (Except.error (PyErr.attributeError msg)) fb =
         _generate_summary_fallback fb) ∧
    (∀ (out : String) (fb fb2 : Except PyErr String),
       generate_summary (Except.ok out) fb = generate_summary (Except.ok out) fb2) ∧
    (∀ (msg : String) (fb : Except PyErr String),
       generate_summary (Except.error (PyErr.exception msg)) fb =
         Except.error (PyErr.exception ("概要文章生成中にエラーが発生しました: " ++ msg))) ∧
    (∀ (e : PyErr), _generate_summary_fallback (Except.error e) = Except.error e) :=
  ⟨fun _ _ => rfl, fun _ _ _ => rfl, fun _ _ => rfl, fun _ _ => rfl, fun _ _ => rfl,
   fun _ _ => rfl, fun _ => rfl, fun _ _ => rfl, fun _ _ _ => rfl, fun _ _ => rfl,
   fun _ => rfl⟩
